import Mathlib

/-!
Verification of the z-mail-agent batch email-processing workflow.

The development shallowly embeds the core of the repository:
the waterfall classifier (src/nodes/classify.py), the generic
classification handler and loop router (src/nodes/handlers.py), the
ingest node (src/nodes/ingest.py) and the Zoho provider fetch logic
(src/email_providers/zoho.py).  External collaborators (the LLM
classification service, the template store, the mail provider network
calls) are modelled as explicit oracles passed to the embedded
functions; provider side effects are recorded as an explicit list of
calls so that labeling / reply behaviour can be stated precisely.
-/

namespace ZMail

/-- Configuration for email processing behaviour, from config.RunConfig
(the debug field only gates logging and is omitted). -/
structure RunConfig where
  dry_run : Bool
  send_reply : Bool
  add_label : Bool
deriving DecidableEq, Repr

/-- One fetched email, mirroring the dict shape used by the nodes:
keys messageId, folderId, fromAddress, subject and labelId (a list of
label identifiers, as returned by the Zoho provider). -/
structure EmailMsg where
  messageId : String
  folderId : String
  fromAddress : String
  subject : String
  labelId : List String
deriving DecidableEq, Repr

/-- Schema of the structured LLM classification response
(models.ClassificationResult).  The source field named match is called
isMatch here because match is a Lean keyword.  Confidence is an exact
rational stand-in for the float field; the code only passes it through. -/
structure ClassificationResult where
  isMatch : Bool
  confidence : Rat
  reasoning : String
deriving DecidableEq, Repr

/-- Configuration entry for a single classification rule
(models.Classification, an entry of classifications.yaml). -/
structure Classification where
  name : String
  priority : Int
  description : String
  classification_prompt : String
  action : String
  reply_template : Option String
deriving DecidableEq, Repr

/-- Result of classifying an email (models.EmailClassification). -/
structure EmailClassification where
  classification_name : String
  confidence : Rat
  reasoning : String
  action : String
  reply_template : Option String
deriving DecidableEq, Repr

/-- LangGraph agent state (models.AgentState).  The current_email dict
is empty or holds one email; it is modelled as an Option. -/
structure AgentState where
  emails : List EmailMsg
  processed_count : Nat
  replied_count : Nat
  current_index : Nat
  errors : List String
  current_email : Option EmailMsg
  classification_result : Option EmailClassification
deriving DecidableEq, Repr

/-- Stable insertion used to embed the Python sorted call of
load_classifications: the new element goes before the first element
whose priority is not smaller, so declaration order is kept on ties. -/
def insertClassification (a : Classification) : List Classification → List Classification
  | [] => [a]
  | b :: l =>
    if a.priority ≤ b.priority then a :: b :: l
    else b :: insertClassification a l

/-- Stable sort by priority; Python sorted with key priority is stable,
and foldr-style insertion keeps earlier (declaration-order) entries
in front of equal-priority later entries. -/
def sortClassifications : List Classification → List Classification
  | [] => []
  | a :: l => insertClassification a (sortClassifications l)

/-- Embedding of load_classifications (classify.py lines 19-27): the
YAML content is the oracle input, the function sorts it by priority. -/
def load_classifications (config : List Classification) : List Classification :=
  sortClassifications config

/-- Embedding of the lowercasing in classify.py line 141
(error_msg.lower()), written over the character list so that it
reduces in the kernel. -/
def lowerStr (s : String) : String :=
  String.mk (s.data.map Char.toLower)

/-- Substring test on character lists, embedding the Python in
operator on strings. -/
def charsContain (hay needle : List Char) : Bool :=
  match hay with
  | [] => needle.isEmpty
  | _ :: t => needle.isPrefixOf hay || charsContain t needle

/-- Substring test on strings: strContains hay needle is true iff
needle occurs contiguously in hay. -/
def strContains (hay needle : String) : Bool :=
  charsContain hay.data needle.data

/-- Embedding of the rate-limit test of classify.py line 141:
is_rate_limit is true when the lowered message contains rate_limit or
the raw message contains 429. -/
def isRateLimit (msg : String) : Bool :=
  strContains (lowerStr msg) "rate_limit" || strContains msg "429"

/-- Waterfall loop of classify_email_node (classify.py lines 76-114):
rules are tried in list order; per rule the prompt is loaded and the
classification service invoked (both folded into the judge oracle,
whose failure models the raised exception caught at line 137).  The
result pairs the emitted classification (none when no rule matched)
with the list of prompt references actually loaded, in order. -/
def waterfallE (judge : Classification → Except String ClassificationResult) :
    List Classification → Except String (Option EmailClassification × List String)
  | [] => Except.ok (none, [])
  | r :: rs =>
    match judge r with
    | Except.error e => Except.error e
    | Except.ok j =>
      if j.isMatch then
        Except.ok (some { classification_name := r.name, confidence := j.confidence,
                          reasoning := j.reasoning, action := r.action,
                          reply_template := r.reply_template }, [r.classification_prompt])
      else
        match waterfallE judge rs with
        | Except.error e => Except.error e
        | Except.ok (res, ps) => Except.ok (res, r.classification_prompt :: ps)

/-- Embedding of classify_email_node (classify.py lines 47-164).  The
judge oracle bundles, for the current email, prompt loading plus the
structured LLM call for one rule; rules is the raw YAML rule list.
Returns the updated state together with the prompt references that
were loaded during the waterfall. -/
def classify_email_node (judge : Classification → Except String ClassificationResult)
    (rules : List Classification) (st : AgentState) : AgentState × List String :=
  if h : st.current_index < st.emails.length then
    let email := st.emails.get ⟨st.current_index, h⟩
    match waterfallE judge (load_classifications rules) with
    | Except.ok (some c, prompts) =>
      ({ emails := st.emails, processed_count := st.processed_count,
         replied_count := st.replied_count, current_index := st.current_index,
         errors := st.errors, current_email := some email,
         classification_result := some c }, prompts)
    | Except.ok (none, prompts) =>
      ({ emails := st.emails, processed_count := st.processed_count,
         replied_count := st.replied_count, current_index := st.current_index,
         errors := st.errors, current_email := some email,
         classification_result := some { classification_name := "unclassified",
                                         confidence := 1,
                                         reasoning := "No classification matched",
                                         action := "skip",
                                         reply_template := none } }, prompts)
    | Except.error msg =>
      ({ emails := st.emails, processed_count := st.processed_count,
         replied_count := st.replied_count, current_index := st.current_index,
         errors := if isRateLimit msg then st.errors
                   else st.errors ++ ["Error classifying email " ++ toString st.current_index
                                      ++ ": " ++ msg],
         current_email := some email,
         classification_result := none }, [])
  else (st, [])

/-- Routing targets of the two conditional edges of the workflow. -/
inductive NextNode where
  | classify
  | handleClassification
  | endRun
deriving DecidableEq, Repr

/-- Embedding of classification_router (classify.py lines 169-179). -/
def classification_router (st : AgentState) : NextNode :=
  if st.current_index ≥ st.emails.length then NextNode.endRun
  else if st.classification_result.isNone then NextNode.endRun
  else NextNode.handleClassification

/-- Embedding of route_after_action (handlers.py lines 163-167). -/
def route_after_action (st : AgentState) : NextNode :=
  if st.current_index < st.emails.length then NextNode.classify
  else NextNode.endRun

/-- Provider side effects issued by the handler nodes, recorded in the
order the provider methods are invoked. -/
inductive ProviderCall where
  | applyLabel (messageId folderId labelId : String)
  | sendReply (messageId toAddress subject : String)
  | markAsRead (messageId : String)
deriving DecidableEq, Repr

/-- Empty email dict: current_email is reset to an empty dict whose
get calls yield falsy values, modelled by empty strings. -/
def emptyEmail : EmailMsg :=
  { messageId := "", folderId := "", fromAddress := "", subject := "", labelId := [] }

/-- Python truthiness of the optional PROCESSED_LABEL_ID string: the
unset (None) and empty cases are both falsy. -/
def labelStr (labelId : Option String) : String :=
  labelId.getD ""

/-- Embedding of _skip_email (handlers.py lines 135-160): advance the
cursor and processed count, optionally applying the processed label;
the label is applied only when should_label, add_label, message and
folder ids and the configured label id are all truthy. -/
def _skip_email (cfg : RunConfig) (labelId : Option String) (st : AgentState)
    (email : EmailMsg) (should_label : Bool) : AgentState × List ProviderCall :=
  let calls :=
    if should_label && cfg.add_label && !email.messageId.isEmpty
        && !email.folderId.isEmpty && !(labelStr labelId).isEmpty then
      [ProviderCall.applyLabel email.messageId email.folderId (labelStr labelId)]
    else []
  ({ emails := st.emails, processed_count := st.processed_count + 1,
     replied_count := st.replied_count, current_index := st.current_index + 1,
     errors := st.errors, current_email := none,
     classification_result := none }, calls)

/-- Embedding of _handle_reply (handlers.py lines 73-132).  The
templates oracle stands for load_template (error means the raised
exception of lines 91-94); sendOk gives the boolean returned by the
provider send_reply call for a message id.  Error appends through the
aliased errors list are modelled by threading the appended list into
the state passed on to _skip_email. -/
def _handle_reply (cfg : RunConfig) (labelId : Option String) (sendOk : String → Bool)
    (templates : String → Except String String) (st : AgentState) (email : EmailMsg)
    (c : EmailClassification) : AgentState × List ProviderCall :=
  match c.reply_template with
  | none =>
    _skip_email cfg labelId
      { st with errors := st.errors ++ ["No reply template for " ++ c.classification_name] }
      email true
  | some tref =>
    match templates tref with
    | Except.error e =>
      _skip_email cfg labelId
        { st with errors := st.errors ++ ["Error loading template: " ++ e] }
        email true
    | Except.ok _content =>
      if cfg.dry_run then
        let calls :=
          if !email.messageId.isEmpty && !email.folderId.isEmpty
              && !(labelStr labelId).isEmpty then
            [ProviderCall.applyLabel email.messageId email.folderId (labelStr labelId)]
          else []
        ({ emails := st.emails, processed_count := st.processed_count + 1,
           replied_count := st.replied_count + 1, current_index := st.current_index + 1,
           errors := st.errors, current_email := none,
           classification_result := none }, calls)
      else
        let sendPart :
            Nat × List String × List ProviderCall :=
          if cfg.send_reply then
            if sendOk email.messageId then
              (st.replied_count + 1, st.errors,
               ProviderCall.sendReply email.messageId email.fromAddress email.subject ::
                 (if !email.messageId.isEmpty then [ProviderCall.markAsRead email.messageId]
                  else []))
            else
              (st.replied_count, st.errors ++ ["Failed to reply to " ++ email.fromAddress],
               [ProviderCall.sendReply email.messageId email.fromAddress email.subject])
          else (st.replied_count, st.errors, [])
        let labelPart :=
          if cfg.add_label && !email.messageId.isEmpty && !email.folderId.isEmpty
              && !(labelStr labelId).isEmpty then
            [ProviderCall.applyLabel email.messageId email.folderId (labelStr labelId)]
          else []
        ({ emails := st.emails, processed_count := st.processed_count + 1,
           replied_count := sendPart.1, current_index := st.current_index + 1,
           errors := sendPart.2.1, current_email := none,
           classification_result := none }, sendPart.2.2 ++ labelPart)

/-- Embedding of handle_classification_node (handlers.py lines 32-68):
dispatch on the classification action; a missing classification result
falls through to _skip_email with the default should_label = true; the
skip action suppresses labeling only for the name error. -/
def handle_classification_node (cfg : RunConfig) (labelId : Option String)
    (sendOk : String → Bool) (templates : String → Except String String)
    (st : AgentState) : AgentState × List ProviderCall :=
  let email := st.current_email.getD emptyEmail
  match st.classification_result with
  | none => _skip_email cfg labelId st email true
  | some c =>
    if c.action = "reply" then _handle_reply cfg labelId sendOk templates st email c
    else if c.action = "skip" then
      _skip_email cfg labelId st email (c.classification_name != "error")
    else if c.action = "forward" then _skip_email cfg labelId st email true
    else if c.action = "label" then _skip_email cfg labelId st email true
    else _skip_email cfg labelId st email true

/-- Embedding of the fetch limit computed at zoho.py line 71: three
times the requested limit when an exclusion label is set (Python
truthiness: None and the empty string count as unset). -/
def requestedLimit (limit : Nat) (exclude_label_id : Option String) : Nat :=
  if (labelStr exclude_label_id).isEmpty then limit else limit * 3

/-- Embedding of fetch_unread_emails (zoho.py lines 63-115).  The page
oracle maps a requested limit to the provider response (error models a
raised exception, which the function catches, returning an empty
list).  With an exclusion label set, emails carrying the label are
filtered out and the result truncated to the limit. -/
def fetch_unread_emails (limit : Nat) (exclude_label_id : Option String)
    (page : Nat → Except String (List EmailMsg)) : List EmailMsg :=
  match page (requestedLimit limit exclude_label_id) with
  | Except.error _ => []
  | Except.ok all_emails =>
    if (labelStr exclude_label_id).isEmpty then all_emails
    else
      (all_emails.filter (fun e => !(e.labelId.contains (labelStr exclude_label_id)))).take limit

/-- Embedding of ingest_emails_node (ingest.py lines 20-45): seed the
run state from the fetched batch. -/
def ingest_emails_node (page : Nat → Except String (List EmailMsg)) (limit : Nat)
    (labelId : Option String) : AgentState :=
  { emails := fetch_unread_emails limit labelId page, processed_count := 0,
    replied_count := 0, current_index := 0, errors := [], current_email := none,
    classification_result := none }

/-- Fresh run state over a given ingested batch (the state produced by
the ingest node for that batch). -/
def initialState (emails : List EmailMsg) : AgentState :=
  { emails := emails, processed_count := 0, replied_count := 0, current_index := 0,
    errors := [], current_email := none, classification_result := none }

/-- One run of the compiled workflow loop starting at the classify
node, as wired by build_workflow: classify, then the classification
router (to the handler or END), then the handler, then
route_after_action (back to classify or END).  The judge oracle is
indexed by the cursor so each message can be classified differently.
Fuel bounds the number of classify steps; every invocation below
supplies more fuel than messages, so the zero-fuel branch is never
reached.  Returns the final state, the number of handler (dispatcher)
invocations, and the provider calls issued by the handlers. -/
def runLoop (cfg : RunConfig) (labelId : Option String) (sendOk : String → Bool)
    (templates : String → Except String String)
    (judge : Nat → Classification → Except String ClassificationResult)
    (rules : List Classification) : Nat → AgentState → AgentState × Nat × List ProviderCall
  | 0, st => (st, 0, [])
  | fuel + 1, st =>
    if classification_router (classify_email_node (judge st.current_index) rules st).1
        = NextNode.handleClassification then
      if route_after_action (handle_classification_node cfg labelId sendOk templates
            (classify_email_node (judge st.current_index) rules st).1).1
          = NextNode.classify then
        ((runLoop cfg labelId sendOk templates judge rules fuel
            (handle_classification_node cfg labelId sendOk templates
              (classify_email_node (judge st.current_index) rules st).1).1).1,
         (runLoop cfg labelId sendOk templates judge rules fuel
            (handle_classification_node cfg labelId sendOk templates
              (classify_email_node (judge st.current_index) rules st).1).1).2.1 + 1,
         (handle_classification_node cfg labelId sendOk templates
            (classify_email_node (judge st.current_index) rules st).1).2 ++
           (runLoop cfg labelId sendOk templates judge rules fuel
              (handle_classification_node cfg labelId sendOk templates
                (classify_email_node (judge st.current_index) rules st).1).1).2.2)
      else ((handle_classification_node cfg labelId sendOk templates
               (classify_email_node (judge st.current_index) rules st).1).1, 1,
            (handle_classification_node cfg labelId sendOk templates
               (classify_email_node (judge st.current_index) rules st).1).2)
    else ((classify_email_node (judge st.current_index) rules st).1, 0, [])

/-- Complete processing of one ingested batch: the workflow loop run
from the freshly seeded state with enough fuel for every message. -/
def runBatch (cfg : RunConfig) (labelId : Option String) (sendOk : String → Bool)
    (templates : String → Except String String)
    (judge : Nat → Classification → Except String ClassificationResult)
    (rules : List Classification) (emails : List EmailMsg) :
    AgentState × Nat × List ProviderCall :=
  runLoop cfg labelId sendOk templates judge rules (emails.length + 1) (initialState emails)

/-- Whole run as composed in main.py: ingest once, then the loop; the
externally observable summary is the processed count, replied count
and errors of the final state. -/
def runMain (cfg : RunConfig) (labelId : Option String) (sendOk : String → Bool)
    (templates : String → Except String String)
    (judge : Nat → Classification → Except String ClassificationResult)
    (rules : List Classification) (limit : Nat)
    (page : Nat → Except String (List EmailMsg)) : AgentState × Nat × List ProviderCall :=
  runBatch cfg labelId sendOk templates judge rules (ingest_emails_node page limit labelId).emails

/-! Helper lemmas about the stable priority sort. -/

theorem mem_insertClassification {x a : Classification} {l : List Classification} :
    x ∈ insertClassification a l ↔ x = a ∨ x ∈ l := by
  induction l with
  | nil => simp [insertClassification]
  | cons b t ih =>
    by_cases h : a.priority ≤ b.priority
    · simp [insertClassification, h]
    · simp only [insertClassification, if_neg h, List.mem_cons, ih]
      tauto

theorem mem_sortClassifications {x : Classification} {l : List Classification} :
    x ∈ sortClassifications l ↔ x ∈ l := by
  induction l with
  | nil => simp [sortClassifications]
  | cons a t ih => simp [sortClassifications, mem_insertClassification, ih]

theorem sorted_insertClassification {a : Classification} {l : List Classification}
    (hl : List.Sorted (fun x y : Classification => x.priority ≤ y.priority) l) :
    List.Sorted (fun x y : Classification => x.priority ≤ y.priority)
      (insertClassification a l) := by
  induction l with
  | nil => simp [insertClassification]
  | cons b t ih =>
    rw [List.sorted_cons] at hl
    obtain ⟨hb, ht⟩ := hl
    by_cases h : a.priority ≤ b.priority
    · rw [insertClassification, if_pos h, List.sorted_cons]
      refine ⟨?_, by rw [List.sorted_cons]; exact ⟨hb, ht⟩⟩
      intro y hy
      rcases List.mem_cons.mp hy with rfl | hy
      · exact h
      · exact le_trans h (hb y hy)
    · rw [insertClassification, if_neg h, List.sorted_cons]
      refine ⟨?_, ih ht⟩
      intro y hy
      rcases mem_insertClassification.mp hy with rfl | hy
      · exact le_of_lt (lt_of_not_le h)
      · exact hb y hy

theorem sorted_sortClassifications (l : List Classification) :
    List.Sorted (fun x y : Classification => x.priority ≤ y.priority)
      (sortClassifications l) := by
  induction l with
  | nil => simp [sortClassifications]
  | cons a t ih => exact sorted_insertClassification ih

theorem filter_insertClassification (p : Int) (a : Classification) (l : List Classification) :
    (insertClassification a l).filter (fun x => x.priority == p) =
      if a.priority == p then a :: l.filter (fun x => x.priority == p)
      else l.filter (fun x => x.priority == p) := by
  induction l with
  | nil =>
    by_cases h : a.priority = p <;> simp [insertClassification, List.filter_cons, h]
  | cons b t ih =>
    by_cases h : a.priority ≤ b.priority
    · rw [insertClassification, if_pos h]
      simp [List.filter_cons]
    · rw [insertClassification, if_neg h, List.filter_cons, ih, List.filter_cons]
      by_cases ha : a.priority = p <;> by_cases hb : b.priority = p
      · exact absurd (le_of_eq (ha.trans hb.symm)) h
      · simp [ha, hb]
      · simp [ha, hb]
      · simp [ha, hb]

theorem filter_sortClassifications (p : Int) (l : List Classification) :
    (sortClassifications l).filter (fun x => x.priority == p) =
      l.filter (fun x => x.priority == p) := by
  induction l with
  | nil => rfl
  | cons a t ih =>
    rw [sortClassifications, filter_insertClassification, List.filter_cons, ih]

/-! Helper lemmas about the waterfall evaluation. -/

theorem waterfallE_first_match (judge : Classification → Except String ClassificationResult)
    (pre : List Classification) (r : Classification) (post : List Classification)
    (j : ClassificationResult)
    (hpre : ∀ x ∈ pre, ∃ jx, judge x = Except.ok jx ∧ jx.isMatch = false)
    (hr : judge r = Except.ok j) (hj : j.isMatch = true) :
    waterfallE judge (pre ++ r :: post) =
      Except.ok (some { classification_name := r.name, confidence := j.confidence,
                        reasoning := j.reasoning, action := r.action,
                        reply_template := r.reply_template },
                 pre.map Classification.classification_prompt ++ [r.classification_prompt]) := by
  induction pre with
  | nil => simp [waterfallE, hr, hj]
  | cons x t ih =>
    obtain ⟨jx, hjx, hnm⟩ := hpre x (by simp)
    have ht := ih (fun y hy => hpre y (by simp [hy]))
    simp [waterfallE, hjx, hnm, ht]

theorem waterfallE_no_match (judge : Classification → Except String ClassificationResult)
    (l : List Classification)
    (h : ∀ x ∈ l, ∃ jx, judge x = Except.ok jx ∧ jx.isMatch = false) :
    ∃ ps, waterfallE judge l = Except.ok (none, ps) := by
  induction l with
  | nil => exact ⟨[], rfl⟩
  | cons x t ih =>
    obtain ⟨jx, hjx, hnm⟩ := h x (by simp)
    obtain ⟨ps, hps⟩ := ih (fun y hy => h y (by simp [hy]))
    exact ⟨x.classification_prompt :: ps, by simp [waterfallE, hjx, hnm, hps]⟩

/-! Helper lemmas about the classify node, the routers and the handler. -/

theorem classify_email_node_fields
    (judge : Classification → Except String ClassificationResult)
    (rules : List Classification) (st : AgentState) :
    (classify_email_node judge rules st).1.emails = st.emails ∧
    (classify_email_node judge rules st).1.current_index = st.current_index ∧
    (classify_email_node judge rules st).1.processed_count = st.processed_count ∧
    (classify_email_node judge rules st).1.replied_count = st.replied_count := by
  unfold classify_email_node
  by_cases h : st.current_index < st.emails.length
  · rw [dif_pos h]
    rcases hw : waterfallE judge (load_classifications rules) with e | ⟨o, ps⟩
    · simp
    · cases o <;> simp
  · rw [dif_neg h]
    exact ⟨rfl, rfl, rfl, rfl⟩

theorem classify_email_node_some
    (judge : Classification → Except String ClassificationResult)
    (rules : List Classification) (st : AgentState)
    (h : st.current_index < st.emails.length)
    (hok : ∃ r, waterfallE judge (load_classifications rules) = Except.ok r) :
    ((classify_email_node judge rules st).1.classification_result).isSome = true := by
  obtain ⟨⟨o, ps⟩, hw⟩ := hok
  unfold classify_email_node
  rw [dif_pos h]
  rw [hw]
  cases o <;> simp

theorem classify_email_node_error
    (judge : Classification → Except String ClassificationResult)
    (rules : List Classification) (st : AgentState) (msg : String)
    (h : st.current_index < st.emails.length)
    (hw : waterfallE judge (load_classifications rules) = Except.error msg) :
    (classify_email_node judge rules st).1.classification_result = none ∧
    (classify_email_node judge rules st).1.errors =
      (if isRateLimit msg then st.errors
       else st.errors ++ ["Error classifying email " ++ toString st.current_index
                          ++ ": " ++ msg]) := by
  unfold classify_email_node
  rw [dif_pos h, hw]
  exact ⟨rfl, rfl⟩

theorem classification_router_none (st : AgentState)
    (h : st.classification_result = none) :
    classification_router st = NextNode.endRun := by
  unfold classification_router
  rw [h]
  simp

theorem classification_router_handle (st : AgentState) (c : EmailClassification)
    (h1 : st.current_index < st.emails.length)
    (h2 : st.classification_result = some c) :
    classification_router st = NextNode.handleClassification := by
  unfold classification_router
  rw [h2]
  simp [not_le.mpr h1]

theorem route_after_action_classify (st : AgentState)
    (h : st.current_index < st.emails.length) :
    route_after_action st = NextNode.classify := by
  simp [route_after_action, h]

theorem route_after_action_end (st : AgentState)
    (h : ¬ st.current_index < st.emails.length) :
    route_after_action st = NextNode.endRun := by
  simp [route_after_action, h]

theorem _skip_email_fields (cfg : RunConfig) (labelId : Option String) (st : AgentState)
    (email : EmailMsg) (b : Bool) :
    (_skip_email cfg labelId st email b).1.emails = st.emails ∧
    (_skip_email cfg labelId st email b).1.current_index = st.current_index + 1 ∧
    (_skip_email cfg labelId st email b).1.processed_count = st.processed_count + 1 := by
  exact ⟨rfl, rfl, rfl⟩

theorem _handle_reply_fields (cfg : RunConfig) (labelId : Option String)
    (sendOk : String → Bool) (templates : String → Except String String)
    (st : AgentState) (email : EmailMsg) (c : EmailClassification) :
    (_handle_reply cfg labelId sendOk templates st email c).1.emails = st.emails ∧
    (_handle_reply cfg labelId sendOk templates st email c).1.current_index
      = st.current_index + 1 ∧
    (_handle_reply cfg labelId sendOk templates st email c).1.processed_count
      = st.processed_count + 1 := by
  unfold _handle_reply
  split
  · exact ⟨rfl, rfl, rfl⟩
  · split
    · exact ⟨rfl, rfl, rfl⟩
    · split
      · exact ⟨rfl, rfl, rfl⟩
      · exact ⟨rfl, rfl, rfl⟩

theorem handle_classification_node_fields (cfg : RunConfig) (labelId : Option String)
    (sendOk : String → Bool) (templates : String → Except String String)
    (st : AgentState) :
    (handle_classification_node cfg labelId sendOk templates st).1.emails = st.emails ∧
    (handle_classification_node cfg labelId sendOk templates st).1.current_index
      = st.current_index + 1 ∧
    (handle_classification_node cfg labelId sendOk templates st).1.processed_count
      = st.processed_count + 1 := by
  unfold handle_classification_node
  rcases st.classification_result with _ | c
  · exact _skip_email_fields ..
  · by_cases h1 : c.action = "reply"
    · simp only [h1, if_pos rfl]
      exact _handle_reply_fields ..
    · simp only [if_neg h1]
      by_cases h2 : c.action = "skip" <;> by_cases h3 : c.action = "forward" <;>
        by_cases h4 : c.action = "label" <;>
        simp only [h2, h3, h4, if_pos, if_neg, if_true, if_false] <;>
        exact _skip_email_fields ..

/-! Helper lemmas about the workflow loop. -/

theorem runLoop_done (cfg : RunConfig) (labelId : Option String) (sendOk : String → Bool)
    (templates : String → Except String String)
    (judge : Nat → Classification → Except String ClassificationResult)
    (rules : List Classification) (fuel : Nat) (st : AgentState)
    (h : st.emails.length ≤ st.current_index) :
    runLoop cfg labelId sendOk templates judge rules (fuel + 1) st = (st, 0, []) := by
  have hc : classify_email_node (judge st.current_index) rules st = (st, []) := by
    unfold classify_email_node
    rw [dif_neg (not_lt.mpr h)]
  have hr : classification_router st = NextNode.endRun := by
    unfold classification_router
    rw [if_pos h]
  rw [runLoop, hc]
  simp [hr]

theorem runLoop_all_ok (cfg : RunConfig) (labelId : Option String) (sendOk : String → Bool)
    (templates : String → Except String String)
    (judge : Nat → Classification → Except String ClassificationResult)
    (rules : List Classification) :
    ∀ (fuel : Nat) (st : AgentState),
      st.current_index ≤ st.emails.length →
      st.emails.length ≤ st.current_index + fuel →
      (∀ i, st.current_index ≤ i → i < st.emails.length →
        ∃ r, waterfallE (judge i) (load_classifications rules) = Except.ok r) →
      (runLoop cfg labelId sendOk templates judge rules (fuel + 1) st).1.current_index
          = st.emails.length ∧
      (runLoop cfg labelId sendOk templates judge rules (fuel + 1) st).1.processed_count
          = st.processed_count + (st.emails.length - st.current_index) ∧
      (runLoop cfg labelId sendOk templates judge rules (fuel + 1) st).2.1
          = st.emails.length - st.current_index := by
  intro fuel
  induction fuel with
  | zero =>
    intro st h1 h2 hok
    have heq : st.current_index = st.emails.length := by omega
    rw [runLoop_done cfg labelId sendOk templates judge rules 0 st (le_of_eq heq.symm)]
    simp [heq]
  | succ f ih =>
    intro st h1 h2 hok
    by_cases hlt : st.current_index < st.emails.length
    · obtain ⟨res, hw⟩ := hok st.current_index le_rfl hlt
      obtain ⟨he1, hi1, hp1, hr1⟩ := classify_email_node_fields (judge st.current_index) rules st
      have hsome := classify_email_node_some (judge st.current_index) rules st hlt ⟨res, hw⟩
      obtain ⟨c, hc⟩ := Option.isSome_iff_exists.mp hsome
      have hrouter : classification_router
          (classify_email_node (judge st.current_index) rules st).1
          = NextNode.handleClassification := by
        refine classification_router_handle _ c ?_ hc
        rw [hi1, he1]
        exact hlt
      obtain ⟨he2, hi2, hp2⟩ := handle_classification_node_fields cfg labelId sendOk templates
        (classify_email_node (judge st.current_index) rules st).1
      have hE2 : (handle_classification_node cfg labelId sendOk templates
          (classify_email_node (judge st.current_index) rules st).1).1.emails = st.emails := by
        rw [he2, he1]
      have hI2 : (handle_classification_node cfg labelId sendOk templates
          (classify_email_node (judge st.current_index) rules st).1).1.current_index
          = st.current_index + 1 := by
        rw [hi2, hi1]
      have hP2 : (handle_classification_node cfg labelId sendOk templates
          (classify_email_node (judge st.current_index) rules st).1).1.processed_count
          = st.processed_count + 1 := by
        rw [hp2, hp1]
      rw [runLoop, if_pos hrouter]
      by_cases hend : st.current_index + 1 < st.emails.length
      · have hroute2 : route_after_action (handle_classification_node cfg labelId sendOk
            templates (classify_email_node (judge st.current_index) rules st).1).1
            = NextNode.classify := by
          refine route_after_action_classify _ ?_
          rw [hI2, hE2]
          exact hend
        rw [if_pos hroute2]
        obtain ⟨ihA, ihB, ihC⟩ := ih (handle_classification_node cfg labelId sendOk templates
            (classify_email_node (judge st.current_index) rules st).1).1
          (by rw [hI2, hE2]; omega) (by rw [hI2, hE2]; omega)
          (by
            intro i hi hilen
            rw [hI2] at hi
            rw [hE2] at hilen
            exact hok i (by omega) hilen)
        rw [hE2] at ihA ihB ihC
        rw [hI2] at ihB ihC
        rw [hP2] at ihB
        refine ⟨ihA, ?_, ?_⟩
        · rw [ihB]
          omega
        · show (runLoop cfg labelId sendOk templates judge rules (f + 1) _).2.1 + 1 = _
          rw [ihC]
          omega
      · have hroute2 : route_after_action (handle_classification_node cfg labelId sendOk
            templates (classify_email_node (judge st.current_index) rules st).1).1
            = NextNode.endRun := by
          refine route_after_action_end _ ?_
          rw [hI2, hE2]
          exact hend
        rw [if_neg (by rw [hroute2]; intro hcontra; cases hcontra)]
        refine ⟨?_, ?_, ?_⟩
        · rw [hI2]
          omega
        · rw [hP2]
          omega
        · show (1 : Nat) = st.emails.length - st.current_index
          omega
    · have heq : st.emails.length ≤ st.current_index := by omega
      rw [runLoop_done cfg labelId sendOk templates judge rules (f + 1) st heq]
      have : st.current_index = st.emails.length := by omega
      simp [this]

theorem runLoop_fail_at (cfg : RunConfig) (labelId : Option String) (sendOk : String → Bool)
    (templates : String → Except String String)
    (judge : Nat → Classification → Except String ClassificationResult)
    (rules : List Classification) :
    ∀ (fuel : Nat) (st : AgentState) (k : Nat),
      st.current_index ≤ k →
      k < st.emails.length →
      st.emails.length ≤ st.current_index + fuel →
      (∀ i, st.current_index ≤ i → i < k →
        ∃ r, waterfallE (judge i) (load_classifications rules) = Except.ok r) →
      (∃ msg, waterfallE (judge k) (load_classifications rules) = Except.error msg) →
      (runLoop cfg labelId sendOk templates judge rules (fuel + 1) st).1.current_index = k ∧
      (runLoop cfg labelId sendOk templates judge rules (fuel + 1) st).1.processed_count
          = st.processed_count + (k - st.current_index) ∧
      (runLoop cfg labelId sendOk templates judge rules (fuel + 1) st).2.1
          = k - st.current_index := by
  intro fuel
  induction fuel with
  | zero =>
    intro st k hk1 hk2 hfuel hok hfail
    omega
  | succ f ih =>
    intro st k hk1 hk2 hfuel hok hfail
    have hlt : st.current_index < st.emails.length := by omega
    obtain ⟨he1, hi1, hp1, hr1⟩ := classify_email_node_fields (judge st.current_index) rules st
    by_cases hatk : st.current_index = k
    · obtain ⟨msg, hw⟩ := hfail
      subst hatk
      have hnone := (classify_email_node_error (judge st.current_index) rules st msg hlt hw).1
      have hrouter : classification_router
          (classify_email_node (judge st.current_index) rules st).1
          = NextNode.endRun := classification_router_none _ hnone
      rw [runLoop, if_neg (by rw [hrouter]; intro hcontra; cases hcontra)]
      exact ⟨by rw [hi1], by rw [hp1]; omega, by simp⟩
    · obtain ⟨res, hw⟩ := hok st.current_index le_rfl (by omega)
      have hsome := classify_email_node_some (judge st.current_index) rules st hlt ⟨res, hw⟩
      obtain ⟨c, hc⟩ := Option.isSome_iff_exists.mp hsome
      have hrouter : classification_router
          (classify_email_node (judge st.current_index) rules st).1
          = NextNode.handleClassification := by
        refine classification_router_handle _ c ?_ hc
        rw [hi1, he1]
        exact hlt
      obtain ⟨he2, hi2, hp2⟩ := handle_classification_node_fields cfg labelId sendOk templates
        (classify_email_node (judge st.current_index) rules st).1
      have hE2 : (handle_classification_node cfg labelId sendOk templates
          (classify_email_node (judge st.current_index) rules st).1).1.emails = st.emails := by
        rw [he2, he1]
      have hI2 : (handle_classification_node cfg labelId sendOk templates
          (classify_email_node (judge st.current_index) rules st).1).1.current_index
          = st.current_index + 1 := by
        rw [hi2, hi1]
      have hP2 : (handle_classification_node cfg labelId sendOk templates
          (classify_email_node (judge st.current_index) rules st).1).1.processed_count
          = st.processed_count + 1 := by
        rw [hp2, hp1]
      have hroute2 : route_after_action (handle_classification_node cfg labelId sendOk
          templates (classify_email_node (judge st.current_index) rules st).1).1
          = NextNode.classify := by
        refine route_after_action_classify _ ?_
        rw [hI2, hE2]
        omega
      rw [runLoop, if_pos hrouter, if_pos hroute2]
      obtain ⟨ihA, ihB, ihC⟩ := ih (handle_classification_node cfg labelId sendOk templates
          (classify_email_node (judge st.current_index) rules st).1).1 k
        (by rw [hI2]; omega) (by rw [hE2]; exact hk2) (by rw [hI2, hE2]; omega)
        (by
          intro i hi hik
          rw [hI2] at hi
          exact hok i (by omega) hik)
        hfail
      rw [hI2] at ihB ihC
      rw [hP2] at ihB
      refine ⟨ihA, ?_, ?_⟩
      · rw [ihB]
        omega
      · show (runLoop cfg labelId sendOk templates judge rules (f + 1) _).2.1 + 1 = _
        rw [ihC]
        omega

/-! Claim theorems. -/

/-- C1: for every message and every ordered rule list, the classifier
evaluates rules in ascending priority (ties broken by declaration
order, expressed by sortedness plus per-priority filter stability of
the loaded rule list) and the first rule whose judgment has match true
determines the emitted classification: its name, the judgment
confidence and reasoning, the rule action and reply-template
reference.  The prompt-reference trace shows that no rule after the
first match has its prompt loaded or the classification service
invoked. -/
theorem claim_C1_waterfall_first_match_wins
    (judge : Classification → Except String ClassificationResult)
    (rules : List Classification) (st : AgentState)
    (pre : List Classification) (r : Classification) (post : List Classification)
    (j : ClassificationResult)
    (hidx : st.current_index < st.emails.length)
    (hsort : load_classifications rules = pre ++ r :: post)
    (hpre : ∀ x ∈ pre, ∃ jx, judge x = Except.ok jx ∧ jx.isMatch = false)
    (hr : judge r = Except.ok j) (hj : j.isMatch = true) :
    List.Sorted (fun a b : Classification => a.priority ≤ b.priority)
      (load_classifications rules) ∧
    (∀ p : Int, (load_classifications rules).filter (fun x => x.priority == p)
      = rules.filter (fun x => x.priority == p)) ∧
    (classify_email_node judge rules st).1.classification_result =
      some { classification_name := r.name, confidence := j.confidence,
             reasoning := j.reasoning, action := r.action,
             reply_template := r.reply_template } ∧
    (classify_email_node judge rules st).2 =
      pre.map Classification.classification_prompt ++ [r.classification_prompt] := by
  have hw := waterfallE_first_match judge pre r post j hpre hr hj
  rw [← hsort] at hw
  refine ⟨sorted_sortClassifications rules, fun p => filter_sortClassifications p rules, ?_, ?_⟩
  · unfold classify_email_node
    rw [dif_pos hidx, hw]
  · unfold classify_email_node
    rw [dif_pos hidx, hw]

/-- Witness for C1: two rules declared as priority 5 then priority 2,
both judged matching; the priority-2 rule wins and only its prompt is
loaded (the priority-5 prompt is never invoked). -/
theorem claim_C1_witness :
    (classify_email_node (fun _ => Except.ok ⟨true, 1, "yes"⟩)
        [⟨"r5", 5, "", "p5", "skip", none⟩, ⟨"r2", 2, "", "p2", "reply", some "t"⟩]
        (initialState [⟨"m1", "f1", "a@b.c", "s", []⟩])).1.classification_result =
      some ⟨"r2", 1, "yes", "reply", some "t"⟩ ∧
    (classify_email_node (fun _ => Except.ok ⟨true, 1, "yes"⟩)
        [⟨"r5", 5, "", "p5", "skip", none⟩, ⟨"r2", 2, "", "p2", "reply", some "t"⟩]
        (initialState [⟨"m1", "f1", "a@b.c", "s", []⟩])).2 = ["p2"] := by
  have h := claim_C1_waterfall_first_match_wins (fun _ => Except.ok ⟨true, 1, "yes"⟩)
    [⟨"r5", 5, "", "p5", "skip", none⟩, ⟨"r2", 2, "", "p2", "reply", some "t"⟩]
    (initialState [⟨"m1", "f1", "a@b.c", "s", []⟩])
    [] ⟨"r2", 2, "", "p2", "reply", some "t"⟩ [⟨"r5", 5, "", "p5", "skip", none⟩]
    ⟨true, 1, "yes"⟩
    (by decide) (by decide) (fun x hx => absurd hx (List.not_mem_nil x)) rfl rfl
  exact ⟨h.2.2.1, h.2.2.2⟩

/-- C5: when the waterfall raises (the classification service call
fails), the classifier returns a null classification; a rate-limit
shaped message (lowered message containing rate_limit, or raw message
containing 429) leaves errors untouched, any other failure appends one
descriptive entry. -/
theorem claim_C5_service_failure_policy
    (judge : Classification → Except String ClassificationResult)
    (rules : List Classification) (st : AgentState) (msg : String)
    (hidx : st.current_index < st.emails.length)
    (hw : waterfallE judge (load_classifications rules) = Except.error msg) :
    (classify_email_node judge rules st).1.classification_result = none ∧
    ((strContains (lowerStr msg) "rate_limit" || strContains msg "429") = true →
      (classify_email_node judge rules st).1.errors = st.errors) ∧
    ((strContains (lowerStr msg) "rate_limit" || strContains msg "429") = false →
      (classify_email_node judge rules st).1.errors =
        st.errors ++ ["Error classifying email " ++ toString st.current_index
                      ++ ": " ++ msg]) := by
  obtain ⟨h1, h2⟩ := classify_email_node_error judge rules st msg hidx hw
  have hb : isRateLimit msg = (strContains (lowerStr msg) "rate_limit" || strContains msg "429") :=
    rfl
  refine ⟨h1, ?_, ?_⟩ <;> intro hrl <;> rw [h2, hb, hrl] <;> simp

/-- Witness for C5: a 429-shaped failure leaves errors empty and the
result null, a generic failure appends the descriptive entry. -/
theorem claim_C5_witness :
    (classify_email_node (fun _ => Except.error "HTTP 429")
        [⟨"r", 1, "", "p", "skip", none⟩]
        (initialState [⟨"m1", "f1", "a@b.c", "s", []⟩])).1.errors = [] ∧
    (classify_email_node (fun _ => Except.error "HTTP 429")
        [⟨"r", 1, "", "p", "skip", none⟩]
        (initialState [⟨"m1", "f1", "a@b.c", "s", []⟩])).1.classification_result = none ∧
    (classify_email_node (fun _ => Except.error "boom")
        [⟨"r", 1, "", "p", "skip", none⟩]
        (initialState [⟨"m1", "f1", "a@b.c", "s", []⟩])).1.errors =
      ["Error classifying email 0: boom"] := by
  have h1 := claim_C5_service_failure_policy (fun _ => Except.error "HTTP 429")
    [⟨"r", 1, "", "p", "skip", none⟩] (initialState [⟨"m1", "f1", "a@b.c", "s", []⟩])
    "HTTP 429" (by decide) rfl
  have h2 := claim_C5_service_failure_policy (fun _ => Except.error "boom")
    [⟨"r", 1, "", "p", "skip", none⟩] (initialState [⟨"m1", "f1", "a@b.c", "s", []⟩])
    "boom" (by decide) rfl
  exact ⟨h1.2.1 (by decide), h1.1, h2.2.2 (by decide)⟩

/-- C6: when every rule is judged non-matching, the classifier emits
exactly the fallback classification unclassified / 1.0 /
No classification matched / skip / no template. -/
theorem claim_C6_no_match_fallback
    (judge : Classification → Except String ClassificationResult)
    (rules : List Classification) (st : AgentState)
    (hidx : st.current_index < st.emails.length)
    (hnm : ∀ x ∈ rules, ∃ jx, judge x = Except.ok jx ∧ jx.isMatch = false) :
    (classify_email_node judge rules st).1.classification_result =
      some { classification_name := "unclassified", confidence := 1,
             reasoning := "No classification matched", action := "skip",
             reply_template := none } := by
  obtain ⟨ps, hps⟩ := waterfallE_no_match judge (load_classifications rules)
    (fun x hx => hnm x (mem_sortClassifications.mp hx))
  unfold classify_email_node
  rw [dif_pos hidx, hps]

/-- Witness for C6: one rule judged non-matching yields exactly the
fallback classification. -/
theorem claim_C6_witness :
    (classify_email_node (fun _ => Except.ok ⟨false, 1, "no"⟩)
        [⟨"r", 1, "", "p", "reply", some "t"⟩]
        (initialState [⟨"m1", "f1", "a@b.c", "s", []⟩])).1.classification_result =
      some ⟨"unclassified", 1, "No classification matched", "skip", none⟩ :=
  claim_C6_no_match_fallback (fun _ => Except.ok ⟨false, 1, "no"⟩)
    [⟨"r", 1, "", "p", "reply", some "t"⟩] (initialState [⟨"m1", "f1", "a@b.c", "s", []⟩])
    (by decide) (fun x _ => ⟨⟨false, 1, "no"⟩, rfl, rfl⟩)

/-- C2 counterexample: a batch of one message whose classification
fails (the waterfall raises) ends the run with zero dispatcher
invocations, zero processed and cursor zero, refuting the unconditional
claim that every batch of size N halts after exactly N dispatcher
invocations with processedCount and cursor equal to N. -/
theorem claim_C2_counterexample :
    ¬ ((runBatch ⟨false, true, true⟩ (some "L1") (fun _ => true) (fun _ => Except.ok "t")
          (fun _ _ => Except.error "boom") [⟨"r2", 2, "", "p2", "reply", some "t"⟩]
          [⟨"m1", "f1", "a@b.c", "s", []⟩]).2.1
        = ([⟨"m1", "f1", "a@b.c", "s", []⟩] : List EmailMsg).length ∧
       (runBatch ⟨false, true, true⟩ (some "L1") (fun _ => true) (fun _ => Except.ok "t")
          (fun _ _ => Except.error "boom") [⟨"r2", 2, "", "p2", "reply", some "t"⟩]
          [⟨"m1", "f1", "a@b.c", "s", []⟩]).1.processed_count
        = ([⟨"m1", "f1", "a@b.c", "s", []⟩] : List EmailMsg).length) := by
  decide

/-- C2 amended: the loop controller returns CONTINUE iff cursor is
below the batch size and HALT otherwise; and, provided every message
of the batch classifies to a non-null result, the run halts after
exactly N dispatcher invocations with processedCount and cursor equal
to N. -/
theorem claim_C2_loop_termination
    (cfg : RunConfig) (labelId : Option String) (sendOk : String → Bool)
    (templates : String → Except String String)
    (judge : Nat → Classification → Except String ClassificationResult)
    (rules : List Classification) (emails : List EmailMsg)
    (hok : ∀ i, i < emails.length →
      ∃ r, waterfallE (judge i) (load_classifications rules) = Except.ok r) :
    (∀ st : AgentState,
      (route_after_action st = NextNode.classify ↔ st.current_index < st.emails.length) ∧
      (route_after_action st = NextNode.endRun ↔ ¬ st.current_index < st.emails.length)) ∧
    (runBatch cfg labelId sendOk templates judge rules emails).2.1 = emails.length ∧
    (runBatch cfg labelId sendOk templates judge rules emails).1.processed_count
      = emails.length ∧
    (runBatch cfg labelId sendOk templates judge rules emails).1.current_index
      = emails.length := by
  constructor
  · intro st
    unfold route_after_action
    by_cases h : st.current_index < st.emails.length <;> simp [h]
  · have h := runLoop_all_ok cfg labelId sendOk templates judge rules emails.length
      (initialState emails) (by simp [initialState]) (by simp [initialState])
      (by
        intro i hi hilen
        exact hok i (by simpa [initialState] using hilen))
    unfold runBatch
    obtain ⟨hA, hB, hC⟩ := h
    refine ⟨?_, ?_, ?_⟩
    · simpa [initialState] using hC
    · simpa [initialState] using hB
    · simpa [initialState] using hA

/-- Witness for C2: a batch of two messages with an always-matching
judge halts with two dispatcher invocations, two processed and cursor
two. -/
theorem claim_C2_witness :
    (runBatch ⟨false, true, true⟩ (some "L1") (fun _ => true) (fun _ => Except.ok "t")
        (fun _ _ => Except.ok ⟨true, 1, "y"⟩) [⟨"r", 1, "", "p", "reply", some "t"⟩]
        [⟨"m1", "f1", "a@b.c", "s", []⟩, ⟨"m2", "f2", "d@e.f", "s2", []⟩]).2.1 = 2 ∧
    (runBatch ⟨false, true, true⟩ (some "L1") (fun _ => true) (fun _ => Except.ok "t")
        (fun _ _ => Except.ok ⟨true, 1, "y"⟩) [⟨"r", 1, "", "p", "reply", some "t"⟩]
        [⟨"m1", "f1", "a@b.c", "s", []⟩, ⟨"m2", "f2", "d@e.f", "s2", []⟩]).1.processed_count
      = 2 := by
  have h := claim_C2_loop_termination ⟨false, true, true⟩ (some "L1") (fun _ => true)
    (fun _ => Except.ok "t") (fun _ _ => Except.ok ⟨true, 1, "y"⟩)
    [⟨"r", 1, "", "p", "reply", some "t"⟩]
    [⟨"m1", "f1", "a@b.c", "s", []⟩, ⟨"m2", "f2", "d@e.f", "s2", []⟩]
    (fun i _ => ⟨(some ⟨"r", 1, "y", "reply", some "t"⟩, ["p"]), rfl⟩)
  exact ⟨h.2.1, h.2.2.1⟩

/-- C10: the post-classify router returns END whenever the
classification result is null, even with cursor below the batch size;
consequently a run whose k-th message fails to classify (every earlier
message classifying fine) stops with cursor k and only k dispatcher
invocations, leaving the rest of the batch unprocessed. -/
theorem claim_C10_null_classification_ends_run
    (cfg : RunConfig) (labelId : Option String) (sendOk : String → Bool)
    (templates : String → Except String String)
    (judge : Nat → Classification → Except String ClassificationResult)
    (rules : List Classification) (emails : List EmailMsg) (k : Nat)
    (hk : k < emails.length)
    (hok : ∀ i, i < k →
      ∃ r, waterfallE (judge i) (load_classifications rules) = Except.ok r)
    (hfail : ∃ msg, waterfallE (judge k) (load_classifications rules) = Except.error msg) :
    (∀ st : AgentState, st.current_index < st.emails.length →
      st.classification_result = none → classification_router st = NextNode.endRun) ∧
    (runBatch cfg labelId sendOk templates judge rules emails).1.current_index = k ∧
    (runBatch cfg labelId sendOk templates judge rules emails).2.1 = k := by
  refine ⟨fun st _ h2 => classification_router_none st h2, ?_⟩
  have h := runLoop_fail_at cfg labelId sendOk templates judge rules emails.length
    (initialState emails) k (by simp [initialState]) (by simpa [initialState] using hk)
    (by simp [initialState]) (fun i _ hik => hok i hik) hfail
  unfold runBatch
  refine ⟨h.1, ?_⟩
  simpa [initialState] using h.2.2

/-- Witness for C10: two messages, classification fails on the first;
the run ends immediately with cursor zero and zero dispatcher
invocations although a second message was waiting. -/
theorem claim_C10_witness :
    (runBatch ⟨false, true, true⟩ (some "L1") (fun _ => true) (fun _ => Except.ok "t")
        (fun _ _ => Except.error "boom") [⟨"r", 1, "", "p", "reply", some "t"⟩]
        [⟨"m1", "f1", "a@b.c", "s", []⟩, ⟨"m2", "f2", "d@e.f", "s2", []⟩]).1.current_index
      = 0 ∧
    (runBatch ⟨false, true, true⟩ (some "L1") (fun _ => true) (fun _ => Except.ok "t")
        (fun _ _ => Except.error "boom") [⟨"r", 1, "", "p", "reply", some "t"⟩]
        [⟨"m1", "f1", "a@b.c", "s", []⟩, ⟨"m2", "f2", "d@e.f", "s2", []⟩]).2.1 = 0 := by
  have h := claim_C10_null_classification_ends_run ⟨false, true, true⟩ (some "L1")
    (fun _ => true) (fun _ => Except.ok "t") (fun _ _ => Except.error "boom")
    [⟨"r", 1, "", "p", "reply", some "t"⟩]
    [⟨"m1", "f1", "a@b.c", "s", []⟩, ⟨"m2", "f2", "d@e.f", "s2", []⟩] 0
    (by decide) (fun i hi => absurd hi (Nat.not_lt_zero i)) ⟨"boom", rfl⟩
  exact ⟨h.2.1, h.2.2⟩

/-- C3 failing evaluation: with a null classification result, labeling
enabled and the marker id configured, the handler advances as a skip
but DOES issue the apply-label provider call, because the null branch
of handle_classification_node calls _skip_email with the default
should_label = true; the claimed no-marker behaviour is only coded for
a classification literally named error, which no code path produces. -/
theorem claim_C3_code_labels_null_classification :
    handle_classification_node ⟨false, true, true⟩ (some "L1") (fun _ => true)
        (fun _ => Except.ok "t")
        { emails := [⟨"m1", "f1", "a@b.c", "s", []⟩], processed_count := 0,
          replied_count := 0, current_index := 0, errors := [],
          current_email := some ⟨"m1", "f1", "a@b.c", "s", []⟩,
          classification_result := none } =
      ({ emails := [⟨"m1", "f1", "a@b.c", "s", []⟩], processed_count := 1,
         replied_count := 0, current_index := 1, errors := [],
         current_email := none, classification_result := none },
       [ProviderCall.applyLabel "m1" "f1" "L1"]) := by
  decide

/-- C4 counterexample: reply classification, template loadable,
non-dry-run, send enabled, sendReply returning false, labeling enabled
and marker configured: the handler appends the failure error, keeps
repliedCount, advances, but still issues the apply-label call, so the
message does NOT end the run without the processed marker. -/
theorem claim_C4_counterexample :
    ProviderCall.applyLabel "m1" "f1" "L1" ∈
      (handle_classification_node ⟨false, true, true⟩ (some "L1") (fun _ => false)
        (fun _ => Except.ok "body")
        { emails := [⟨"m1", "f1", "a@b.c", "s", []⟩], processed_count := 0,
          replied_count := 0, current_index := 0, errors := [],
          current_email := some ⟨"m1", "f1", "a@b.c", "s", []⟩,
          classification_result := some ⟨"article", 1, "r", "reply", some "t"⟩ }).2 ∧
    (handle_classification_node ⟨false, true, true⟩ (some "L1") (fun _ => false)
        (fun _ => Except.ok "body")
        { emails := [⟨"m1", "f1", "a@b.c", "s", []⟩], processed_count := 0,
          replied_count := 0, current_index := 0, errors := [],
          current_email := some ⟨"m1", "f1", "a@b.c", "s", []⟩,
          classification_result := some ⟨"article", 1, "r", "reply", some "t"⟩ }).1.errors
      = ["Failed to reply to a@b.c"] ∧
    (handle_classification_node ⟨false, true, true⟩ (some "L1") (fun _ => false)
        (fun _ => Except.ok "body")
        { emails := [⟨"m1", "f1", "a@b.c", "s", []⟩], processed_count := 0,
          replied_count := 0, current_index := 0, errors := [],
          current_email := some ⟨"m1", "f1", "a@b.c", "s", []⟩,
          classification_result := some ⟨"article", 1, "r", "reply", some "t"⟩ }).1.replied_count
      = 0 := by
  decide

/-- C4 amended: when sendReply returns false (non-dry-run, send
enabled, template loadable), exactly one error entry referencing the
sender address is appended, repliedCount is unchanged, processedCount
and cursor advance by one and no mark-as-read is issued; however the
processed-marker call IS still made whenever labeling is enabled and
the message, folder and marker ids are all configured, and only its
absence requires labeling to be disabled or an id to be missing. -/
theorem claim_C4_reply_failure
    (cfg : RunConfig) (labelId : Option String) (sendOk : String → Bool)
    (templates : String → Except String String) (st : AgentState) (e : EmailMsg)
    (c : EmailClassification) (tref content : String)
    (hemail : st.current_email = some e)
    (hc : st.classification_result = some c)
    (haction : c.action = "reply")
    (htref : c.reply_template = some tref)
    (htemp : templates tref = Except.ok content)
    (hdry : cfg.dry_run = false)
    (hsend : cfg.send_reply = true)
    (hfail : sendOk e.messageId = false) :
    (handle_classification_node cfg labelId sendOk templates st).1.errors
        = st.errors ++ ["Failed to reply to " ++ e.fromAddress] ∧
    (handle_classification_node cfg labelId sendOk templates st).1.replied_count
        = st.replied_count ∧
    (handle_classification_node cfg labelId sendOk templates st).1.processed_count
        = st.processed_count + 1 ∧
    (handle_classification_node cfg labelId sendOk templates st).1.current_index
        = st.current_index + 1 ∧
    (handle_classification_node cfg labelId sendOk templates st).2
        = ProviderCall.sendReply e.messageId e.fromAddress e.subject ::
            (if cfg.add_label && !e.messageId.isEmpty && !e.folderId.isEmpty
                && !(labelStr labelId).isEmpty then
               [ProviderCall.applyLabel e.messageId e.folderId (labelStr labelId)]
             else []) ∧
    ProviderCall.markAsRead e.messageId ∉
      (handle_classification_node cfg labelId sendOk templates st).2 := by
  have hmain : handle_classification_node cfg labelId sendOk templates st
      = ({ emails := st.emails, processed_count := st.processed_count + 1,
           replied_count := st.replied_count, current_index := st.current_index + 1,
           errors := st.errors ++ ["Failed to reply to " ++ e.fromAddress],
           current_email := none, classification_result := none },
         ProviderCall.sendReply e.messageId e.fromAddress e.subject ::
           (if cfg.add_label && !e.messageId.isEmpty && !e.folderId.isEmpty
               && !(labelStr labelId).isEmpty then
              [ProviderCall.applyLabel e.messageId e.folderId (labelStr labelId)]
            else [])) := by
    unfold handle_classification_node
    rw [hc, hemail]
    simp only [Option.getD_some]
    rw [if_pos haction]
    unfold _handle_reply
    simp only [htref, htemp, hdry, hsend, hfail]
    simp
  rw [hmain]
  refine ⟨rfl, rfl, rfl, rfl, rfl, ?_⟩
  simp only [List.mem_cons]
  rintro (h | h)
  · cases h
  · by_cases hcond : (cfg.add_label && !e.messageId.isEmpty && !e.folderId.isEmpty
        && !(labelStr labelId).isEmpty) = true
    · rw [if_pos hcond] at h
      simp at h
    · rw [if_neg hcond] at h
      simp at h

/-- Witness for C4: the amended statement evaluated at a concrete
failing send with labeling enabled. -/
theorem claim_C4_witness :
    (handle_classification_node ⟨false, true, true⟩ (some "L1") (fun _ => false)
        (fun _ => Except.ok "body")
        { emails := [⟨"m1", "f1", "a@b.c", "s", []⟩], processed_count := 0,
          replied_count := 0, current_index := 0, errors := [],
          current_email := some ⟨"m2", "f2", "x@y.z", "hello", []⟩,
          classification_result := some ⟨"article", 1, "r", "reply", some "t"⟩ }).1.errors
      = ["Failed to reply to x@y.z"] ∧
    (handle_classification_node ⟨false, true, true⟩ (some "L1") (fun _ => false)
        (fun _ => Except.ok "body")
        { emails := [⟨"m1", "f1", "a@b.c", "s", []⟩], processed_count := 0,
          replied_count := 0, current_index := 0, errors := [],
          current_email := some ⟨"m2", "f2", "x@y.z", "hello", []⟩,
          classification_result := some ⟨"article", 1, "r", "reply", some "t"⟩ }).1.replied_count
      = 0 := by
  have h := claim_C4_reply_failure ⟨false, true, true⟩ (some "L1") (fun _ => false)
    (fun _ => Except.ok "body")
    { emails := [⟨"m1", "f1", "a@b.c", "s", []⟩], processed_count := 0,
      replied_count := 0, current_index := 0, errors := [],
      current_email := some ⟨"m2", "f2", "x@y.z", "hello", []⟩,
      classification_result := some ⟨"article", 1, "r", "reply", some "t"⟩ }
    ⟨"m2", "f2", "x@y.z", "hello", []⟩ ⟨"article", 1, "r", "reply", some "t"⟩
    "t" "body" rfl rfl rfl rfl rfl rfl rfl rfl
  exact ⟨h.1, h.2.1⟩

/-- C8: under dry-run, a reply-classified message with a loadable
template triggers no sendReply provider call, repliedCount is
incremented, and the only provider call is the marker application,
issued exactly when the message, folder and marker ids are all
configured. -/
theorem claim_C8_dry_run_suppression
    (cfg : RunConfig) (labelId : Option String) (sendOk : String → Bool)
    (templates : String → Except String String) (st : AgentState) (e : EmailMsg)
    (c : EmailClassification) (tref content : String)
    (hemail : st.current_email = some e)
    (hc : st.classification_result = some c)
    (haction : c.action = "reply")
    (htref : c.reply_template = some tref)
    (htemp : templates tref = Except.ok content)
    (hdry : cfg.dry_run = true) :
    (handle_classification_node cfg labelId sendOk templates st).1.replied_count
        = st.replied_count + 1 ∧
    (∀ mid addr subj, ProviderCall.sendReply mid addr subj ∉
      (handle_classification_node cfg labelId sendOk templates st).2) ∧
    (handle_classification_node cfg labelId sendOk templates st).2
        = (if !e.messageId.isEmpty && !e.folderId.isEmpty && !(labelStr labelId).isEmpty
           then [ProviderCall.applyLabel e.messageId e.folderId (labelStr labelId)]
           else []) ∧
    ((!e.messageId.isEmpty && !e.folderId.isEmpty && !(labelStr labelId).isEmpty) = true →
      ProviderCall.applyLabel e.messageId e.folderId (labelStr labelId) ∈
        (handle_classification_node cfg labelId sendOk templates st).2) := by
  have hmain : handle_classification_node cfg labelId sendOk templates st
      = ({ emails := st.emails, processed_count := st.processed_count + 1,
           replied_count := st.replied_count + 1, current_index := st.current_index + 1,
           errors := st.errors, current_email := none, classification_result := none },
         if !e.messageId.isEmpty && !e.folderId.isEmpty && !(labelStr labelId).isEmpty
         then [ProviderCall.applyLabel e.messageId e.folderId (labelStr labelId)]
         else []) := by
    unfold handle_classification_node
    rw [hc, hemail]
    simp only [Option.getD_some]
    rw [if_pos haction]
    unfold _handle_reply
    simp only [htref, htemp, hdry]
    simp
  rw [hmain]
  refine ⟨rfl, ?_, rfl, ?_⟩
  · intro mid addr subj h
    by_cases hcond : (!e.messageId.isEmpty && !e.folderId.isEmpty
        && !(labelStr labelId).isEmpty) = true
    · rw [if_pos hcond] at h
      simp at h
    · rw [if_neg hcond] at h
      simp at h
  · intro hcond
    rw [if_pos hcond]
    simp

/-- Witness for C8: dry run at a concrete reply-classified message
with configured ids increments repliedCount and issues exactly the
apply-label call. -/
theorem claim_C8_witness :
    (handle_classification_node ⟨true, true, true⟩ (some "L1") (fun _ => false)
        (fun _ => Except.ok "body")
        { emails := [⟨"m1", "f1", "a@b.c", "s", []⟩], processed_count := 0,
          replied_count := 0, current_index := 0, errors := [],
          current_email := some ⟨"m1", "f1", "a@b.c", "s", []⟩,
          classification_result := some ⟨"article", 1, "r", "reply", some "t"⟩ }).1.replied_count
      = 1 ∧
    (handle_classification_node ⟨true, true, true⟩ (some "L1") (fun _ => false)
        (fun _ => Except.ok "body")
        { emails := [⟨"m1", "f1", "a@b.c", "s", []⟩], processed_count := 0,
          replied_count := 0, current_index := 0, errors := [],
          current_email := some ⟨"m1", "f1", "a@b.c", "s", []⟩,
          classification_result := some ⟨"article", 1, "r", "reply", some "t"⟩ }).2
      = [ProviderCall.applyLabel "m1" "f1" "L1"] := by
  have h := claim_C8_dry_run_suppression ⟨true, true, true⟩ (some "L1") (fun _ => false)
    (fun _ => Except.ok "body")
    { emails := [⟨"m1", "f1", "a@b.c", "s", []⟩], processed_count := 0,
      replied_count := 0, current_index := 0, errors := [],
      current_email := some ⟨"m1", "f1", "a@b.c", "s", []⟩,
      classification_result := some ⟨"article", 1, "r", "reply", some "t"⟩ }
    ⟨"m1", "f1", "a@b.c", "s", []⟩ ⟨"article", 1, "r", "reply", some "t"⟩
    "t" "body" rfl rfl rfl rfl rfl rfl
  refine ⟨h.1, ?_⟩
  rw [h.2.2.1]
  decide

/-- C7: with a non-empty exclusion marker, ingest requests three times
the limit from the provider, removes every message whose label list
contains the marker, truncates to the limit, and the returned batch
never contains a message carrying the marker; with the marker unset
the raw page is returned unfiltered (and stays within the limit
whenever the provider honoured the requested limit). -/
theorem claim_C7_ingest_overfetch_filter
    (limit : Nat) (m : String) (page : Nat → Except String (List EmailMsg))
    (all raw : List EmailMsg)
    (hm : m ≠ "")
    (hpage : page (limit * 3) = Except.ok all)
    (hraw : page limit = Except.ok raw) :
    requestedLimit limit (some m) = limit * 3 ∧
    fetch_unread_emails limit (some m) page
      = (all.filter (fun e => !(e.labelId.contains m))).take limit ∧
    (∀ e ∈ fetch_unread_emails limit (some m) page, e.labelId.contains m = false) ∧
    fetch_unread_emails limit none page = raw ∧
    (raw.length ≤ limit → (fetch_unread_emails limit none page).length ≤ limit) := by
  have hne : m.isEmpty = false := by
    cases hb : m.isEmpty
    · rfl
    · exact absurd ((String.isEmpty_iff m).mp hb) hm
  have hreq : requestedLimit limit (some m) = limit * 3 := by
    unfold requestedLimit labelStr
    simp [hne]
  have hfetchS : fetch_unread_emails limit (some m) page
      = (all.filter (fun e => !(e.labelId.contains m))).take limit := by
    unfold fetch_unread_emails
    simp only [hreq, hpage, labelStr, Option.getD_some, hne]
    simp
  have hfetchN : fetch_unread_emails limit none page = raw := by
    unfold fetch_unread_emails
    rw [show requestedLimit limit none = limit from rfl, hraw]
    rfl
  refine ⟨hreq, hfetchS, ?_, hfetchN, ?_⟩
  · intro e he
    rw [hfetchS] at he
    have h1 : e ∈ all.filter (fun e => !(e.labelId.contains m)) :=
      List.take_subset limit _ he
    have h2 := (List.mem_filter.mp h1).2
    simpa using h2
  · intro h
    rw [hfetchN]
    exact h

/-- Witness for C7: a page of five messages, two of which carry the
marker, filtered and truncated to the limit of two unmarked ones;
unset marker returns the raw page. -/
theorem claim_C7_witness :
    fetch_unread_emails 2 (some "L1")
        (fun _ => Except.ok [⟨"m1", "f1", "a", "s", ["L1"]⟩, ⟨"m2", "f2", "a", "s", []⟩,
                             ⟨"m3", "f3", "a", "s", ["L1"]⟩, ⟨"m4", "f4", "a", "s", []⟩,
                             ⟨"m5", "f5", "a", "s", []⟩])
      = [⟨"m2", "f2", "a", "s", []⟩, ⟨"m4", "f4", "a", "s", []⟩] ∧
    requestedLimit 2 (some "L1") = 6 ∧
    fetch_unread_emails 2 none (fun _ => Except.ok [⟨"m1", "f1", "a", "s", ["L1"]⟩])
      = [⟨"m1", "f1", "a", "s", ["L1"]⟩] := by
  have h1 := claim_C7_ingest_overfetch_filter 2 "L1"
    (fun _ => Except.ok [⟨"m1", "f1", "a", "s", ["L1"]⟩, ⟨"m2", "f2", "a", "s", []⟩,
                         ⟨"m3", "f3", "a", "s", ["L1"]⟩, ⟨"m4", "f4", "a", "s", []⟩,
                         ⟨"m5", "f5", "a", "s", []⟩])
    [⟨"m1", "f1", "a", "s", ["L1"]⟩, ⟨"m2", "f2", "a", "s", []⟩,
     ⟨"m3", "f3", "a", "s", ["L1"]⟩, ⟨"m4", "f4", "a", "s", []⟩, ⟨"m5", "f5", "a", "s", []⟩]
    [⟨"m1", "f1", "a", "s", ["L1"]⟩, ⟨"m2", "f2", "a", "s", []⟩,
     ⟨"m3", "f3", "a", "s", ["L1"]⟩, ⟨"m4", "f4", "a", "s", []⟩, ⟨"m5", "f5", "a", "s", []⟩]
    (by decide) rfl rfl
  have h2 := claim_C7_ingest_overfetch_filter 2 "L1"
    (fun _ => Except.ok [⟨"m1", "f1", "a", "s", ["L1"]⟩])
    [⟨"m1", "f1", "a", "s", ["L1"]⟩] [⟨"m1", "f1", "a", "s", ["L1"]⟩]
    (by decide) rfl rfl
  refine ⟨?_, h1.1, h2.2.2.2.1⟩
  rw [h1.2.1]
  decide

/-- C9 counterexample: a failing provider fetch does not propagate: the
fetch returns an empty list, the run completes with a summary of zero
processed, zero replied and no errors, refuting the claim that an
ingest fetch failure is the fatal case that yields no summary. -/
theorem claim_C9_counterexample :
    fetch_unread_emails 10 (some "L1") (fun _ => Except.error "connection refused") = [] ∧
    (runMain ⟨false, true, true⟩ (some "L1") (fun _ => true) (fun _ => Except.ok "t")
        (fun _ _ => Except.ok ⟨true, 1, "y"⟩) [⟨"r", 1, "", "p", "reply", some "t"⟩] 10
        (fun _ => Except.error "connection refused")).1.processed_count = 0 ∧
    (runMain ⟨false, true, true⟩ (some "L1") (fun _ => true) (fun _ => Except.ok "t")
        (fun _ _ => Except.ok ⟨true, 1, "y"⟩) [⟨"r", 1, "", "p", "reply", some "t"⟩] 10
        (fun _ => Except.error "connection refused")).1.errors = [] ∧
    (runMain ⟨false, true, true⟩ (some "L1") (fun _ => true) (fun _ => Except.ok "t")
        (fun _ _ => Except.ok ⟨true, 1, "y"⟩) [⟨"r", 1, "", "p", "reply", some "t"⟩] 10
        (fun _ => Except.error "connection refused")).2.1 = 0 := by
  decide

/-- C9 amended: no error in a single message propagates out of the
run, and an ingest fetch failure does not either: the provider catches
it and returns an empty batch, so the run completes normally with a
summary of zero processed, zero replied, no errors, no dispatcher
invocation and no provider calls. -/
theorem claim_C9_fetch_failure_not_fatal
    (cfg : RunConfig) (labelId : Option String) (sendOk : String → Bool)
    (templates : String → Except String String)
    (judge : Nat → Classification → Except String ClassificationResult)
    (rules : List Classification) (limit : Nat)
    (page : Nat → Except String (List EmailMsg)) (emsg : String)
    (hfail : page (requestedLimit limit labelId) = Except.error emsg) :
    (runMain cfg labelId sendOk templates judge rules limit page).1.processed_count = 0 ∧
    (runMain cfg labelId sendOk templates judge rules limit page).1.replied_count = 0 ∧
    (runMain cfg labelId sendOk templates judge rules limit page).1.errors = [] ∧
    (runMain cfg labelId sendOk templates judge rules limit page).2.1 = 0 ∧
    (runMain cfg labelId sendOk templates judge rules limit page).2.2 = [] := by
  have hfetch : fetch_unread_emails limit labelId page = [] := by
    unfold fetch_unread_emails
    rw [hfail]
  unfold runMain runBatch
  simp only [ingest_emails_node, hfetch]
  rw [runLoop_done cfg labelId sendOk templates judge rules _ _ (by simp [initialState])]
  exact ⟨rfl, rfl, rfl, rfl, rfl⟩

/-- Witness for C9: the amended statement at a concrete failing page. -/
theorem claim_C9_witness :
    (runMain ⟨true, false, false⟩ none (fun _ => false) (fun _ => Except.error "no template")
        (fun _ _ => Except.error "down") [] 5
        (fun _ => Except.error "timeout")).1.processed_count = 0 ∧
    (runMain ⟨true, false, false⟩ none (fun _ => false) (fun _ => Except.error "no template")
        (fun _ _ => Except.error "down") [] 5
        (fun _ => Except.error "timeout")).2.1 = 0 := by
  have h := claim_C9_fetch_failure_not_fatal ⟨true, false, false⟩ none (fun _ => false)
    (fun _ => Except.error "no template") (fun _ _ => Except.error "down") [] 5
    (fun _ => Except.error "timeout") "timeout" rfl
  exact ⟨h.1, h.2.2.2.1⟩

end ZMail
